import Mathlib

/-!
Verification of the investment-simulator program.

The program is a self-contained compound-interest reporting script.  Its
numeric computations (performed over `f64` in the source) are embedded here
over `ℚ`, the exact idealization of its real-number arithmetic; all source
constants (0.05, 50 000, 100 000 000, …) are exactly representable.
-/

/-- One month of the simulator loop body: add the contribution, then apply
the monthly interest factor.  Mirrors `wealth += monthly_investment;
wealth *= 1.0 + monthly_rate;` in `simulate_index_investment`. -/
def monthlyStep (monthly_investment monthly_rate wealth : ℚ) : ℚ :=
  (wealth + monthly_investment) * (1 + monthly_rate)

/-- Balance after `n` months of the simulator loop, starting from 0. -/
def wealthAfter (monthly_investment monthly_rate : ℚ) : ℕ → ℚ
  | 0 => 0
  | n + 1 => monthlyStep monthly_investment monthly_rate
      (wealthAfter monthly_investment monthly_rate n)

/-- State transformer of one iteration of the `for month in 1..=months` loop:
the state is the running balance together with the list of year-end balances
pushed so far; the balance is pushed when `month % 12 == 0`. -/
def simAccum (monthly_investment monthly_rate : ℚ) (st : ℚ × List ℚ)
    (month : ℕ) : ℚ × List ℚ :=
  let wealth := monthlyStep monthly_investment monthly_rate st.1
  if month % 12 = 0 then (wealth, st.2 ++ [wealth]) else (wealth, st.2)

/-- `simulate_index_investment` from `src/main.rs`: iterate the loop body for
months 1..=years*12 starting from balance 0 and return the pushed
year-end balances. -/
def simulate_index_investment (monthly_investment annual_rate : ℚ)
    (years : ℕ) : List ℚ :=
  let months := years * 12
  let monthly_rate := annual_rate / 12
  ((List.range' 1 months).foldl (simAccum monthly_investment monthly_rate)
    (0, [])).2

/-- `calculate_monthly_investment_for_target` from `src/main.rs`:
`PMT = FV / (((1 + r)^n - 1) / r)` with `r = annual_rate/12`,
`n = years*12`. -/
def calculate_monthly_investment_for_target (target_amount annual_rate : ℚ)
    (years : ℕ) : ℚ :=
  let months := years * 12
  let monthly_rate := annual_rate / 12
  let denominator := ((1 + monthly_rate) ^ months - 1) / monthly_rate
  target_amount / denominator

/-- Result of `format_yen`: the unit glyph chosen, the scaled numeric value
that is printed before it, and the number of decimal places requested of the
format string. -/
structure YenFormat where
  scaled : ℚ
  decimals : ℕ
  unit : String
  deriving DecidableEq, Repr

/-- `format_yen` from `src/main.rs`: three magnitude bands with thresholds
100 000 000 and 10 000. -/
def format_yen (amount : ℚ) : YenFormat :=
  if amount ≥ 100000000 then ⟨amount / 100000000, 2, "億円"⟩
  else if amount ≥ 10000 then ⟨amount / 10000, 1, "万円"⟩
  else ⟨amount, 0, "円"⟩

/-- The hardcoded target of `main`: 100 000 000 yen. -/
def target_amount : ℚ := 100000000

/-- The hardcoded annual rate of `main`: 5 %. -/
def annual_rate : ℚ := 5 / 100

/-- The hardcoded current monthly contribution of `main`: 50 000 yen. -/
def current_monthly : ℚ := 50000

/-- The hardcoded horizon list of `main`. -/
def periods : List ℕ := [10, 15, 20, 25, 30]

/-- One row of the first report table, as computed in the first `for` loop of
`main`. -/
structure PeriodRow where
  required_monthly : ℚ
  total_invested : ℚ
  profit : ℚ
  profit_rate : ℚ
  achievable : Bool
  deriving DecidableEq, Repr

/-- The first-table computation of `main` for one horizon. -/
def periodRow (years : ℕ) : PeriodRow :=
  let required_monthly :=
    calculate_monthly_investment_for_target target_amount annual_rate years
  let total_invested := required_monthly * ((years * 12 : ℕ) : ℚ)
  let profit := target_amount - total_invested
  let profit_rate := (profit / total_invested) * 100
  ⟨required_monthly, total_invested, profit, profit_rate,
    decide (required_monthly ≤ current_monthly)⟩

/-- The 30-year trajectory computed by `main` for the third table. -/
def trajectory30 : List ℚ :=
  simulate_index_investment current_monthly annual_rate 30

/-- The rows printed by the third table of `main`: enumerate the 30-year
trajectory, keep a year when `year_num % 5 == 0`, or the balance has reached
the target, or it is year 30; the Boolean records whether the marker glyph is
the target-reached one. -/
def trajectoryRows : List (ℕ × ℚ × Bool) :=
  trajectory30.enum.filterMap fun p =>
    let year_num := p.1 + 1
    let wealth := p.2
    if year_num % 5 = 0 ∨ wealth ≥ target_amount ∨ year_num = 30 then
      some (year_num, wealth, decide (wealth ≥ target_amount))
    else none

/-- The `yearly_wealth.last().unwrap_or(&0.0)` idiom of `main`. -/
def lastWealth (l : List ℚ) : ℚ := l.getLast?.getD 0

/-! ### Characterization of the simulator loop -/

/-- The fold implementing the `for month in 1..=months` loop computes the
running balance `wealthAfter` and pushes exactly the balances at months
12, 24, …, i.e. one entry per completed year. -/
lemma sim_foldl_eq (m mr : ℚ) (k : ℕ) :
    (List.range' 1 k).foldl (simAccum m mr) (0, ([] : List ℚ)) =
      (wealthAfter m mr k,
        (List.range (k / 12)).map fun i => wealthAfter m mr ((i + 1) * 12)) := by
  induction k with
  | zero => simp [wealthAfter]
  | succ k ih =>
      rw [List.range'_concat, List.foldl_append, ih]
      simp only [List.foldl_cons, List.foldl_nil]
      have hmonth : 1 + 1 * k = k + 1 := by omega
      rw [hmonth]
      show simAccum m mr _ (k + 1) = _
      unfold simAccum
      by_cases h12 : (k + 1) % 12 = 0
      · rw [if_pos h12]
        have hdiv : (k + 1) / 12 = k / 12 + 1 := by omega
        have hmul : (k / 12 + 1) * 12 = k + 1 := by omega
        rw [hdiv, List.range_succ, List.map_append]
        simp only [List.map_cons, List.map_nil, hmul]
        rfl
      · rw [if_neg h12]
        have hdiv : (k + 1) / 12 = k / 12 := by omega
        rw [hdiv]
        rfl

/-- The simulator returns exactly the year-end balances
`wealthAfter ((i+1)*12)` for `i = 0, …, years-1`. -/
lemma simulate_eq_map (m r : ℚ) (y : ℕ) :
    simulate_index_investment m r y =
      (List.range y).map fun i => wealthAfter m (r / 12) ((i + 1) * 12) := by
  show ((List.range' 1 (y * 12)).foldl (simAccum m (r / 12)) (0, [])).2 = _
  rw [sim_foldl_eq]
  have h : y * 12 / 12 = y := by omega
  rw [h]

/-- Element access into the simulator output. -/
lemma simulate_getD (m r : ℚ) (y i : ℕ) (h : i < y) :
    (simulate_index_investment m r y).getD i 0 =
      wealthAfter m (r / 12) ((i + 1) * 12) := by
  rw [simulate_eq_map, List.getD_eq_getElem?_getD, List.getElem?_map,
    List.getElem?_range h]
  rfl

/-- The last element of a non-trivial simulation is the balance after all
`years * 12` months. -/
lemma lastWealth_simulate (m r : ℚ) (y : ℕ) (hy : 0 < y) :
    lastWealth (simulate_index_investment m r y) =
      wealthAfter m (r / 12) (y * 12) := by
  obtain ⟨k, rfl⟩ : ∃ k, y = k + 1 := ⟨y - 1, by omega⟩
  rw [simulate_eq_map, lastWealth, List.range_succ, List.map_append]
  simp [List.getLast?_concat]

/-! ### Algebra of the balance recurrence -/

/-- Closed form of the simulator recurrence, stated multiplicatively so that
it needs no hypothesis: `mr * wealthAfter n = m * (1+mr) * ((1+mr)^n - 1)`.
Each contribution accrues interest in its own month, so the simulator
realizes an annuity-due, one factor `(1+mr)` above the ordinary-annuity
future value. -/
lemma mul_wealthAfter (m mr : ℚ) (n : ℕ) :
    mr * wealthAfter m mr n = m * (1 + mr) * ((1 + mr) ^ n - 1) := by
  induction n with
  | zero => simp [wealthAfter]
  | succ n ih =>
      have hstep : wealthAfter m mr (n + 1) =
          (wealthAfter m mr n + m) * (1 + mr) := rfl
      rw [hstep]
      linear_combination (1 + mr) * ih

/-- The running balance is non-negative for non-negative inputs. -/
lemma wealthAfter_nonneg (m mr : ℚ) (hm : 0 ≤ m) (hmr : 0 ≤ mr) :
    ∀ n, 0 ≤ wealthAfter m mr n
  | 0 => le_refl 0
  | n + 1 => by
      have ih := wealthAfter_nonneg m mr hm hmr n
      have : (0 : ℚ) ≤ (wealthAfter m mr n + m) * (1 + mr) :=
        mul_nonneg (by linarith) (by linarith)
      exact this

/-- The running balance strictly increases every month when the
contribution is positive and the rate is non-negative. -/
lemma wealthAfter_strictMono (m mr : ℚ) (hm : 0 < m) (hmr : 0 ≤ mr) :
    StrictMono (wealthAfter m mr) := by
  apply strictMono_nat_of_lt_succ
  intro n
  have hnn := wealthAfter_nonneg m mr (le_of_lt hm) hmr n
  have h1 : wealthAfter m mr n + m ≤ (wealthAfter m mr n + m) * (1 + mr) :=
    le_mul_of_one_le_right (by linarith) (by linarith)
  have hstep : wealthAfter m mr (n + 1) =
      (wealthAfter m mr n + m) * (1 + mr) := rfl
  rw [hstep]
  linarith

/-- Exact round trip: feeding the required monthly contribution back into
the simulator lands on `target * (1 + annual_rate / 12)`, not on the target:
the calculator inverts the ordinary-annuity formula while the simulator
compounds every contribution one extra period. -/
lemma roundtrip_exact (t r : ℚ) (y : ℕ) (hr : 0 < r) (hy : 0 < y) :
    lastWealth (simulate_index_investment
      (calculate_monthly_investment_for_target t r y) r y) =
      t * (1 + r / 12) := by
  have hx : 0 < r / 12 := by positivity
  have hA : 1 < (1 + r / 12) ^ (y * 12) :=
    one_lt_pow₀ (by linarith) (by omega)
  have hAne : (1 + r / 12) ^ (y * 12) - 1 ≠ 0 := by linarith
  have hm : calculate_monthly_investment_for_target t r y =
      t * (r / 12) / ((1 + r / 12) ^ (y * 12) - 1) := by
    show t / (((1 + r / 12) ^ (y * 12) - 1) / (r / 12)) = _
    rw [div_div_eq_mul_div]
  have hmul : calculate_monthly_investment_for_target t r y *
      ((1 + r / 12) ^ (y * 12) - 1) = t * (r / 12) := by
    rw [hm, div_mul_cancel₀ _ hAne]
  have hcw := mul_wealthAfter
    (calculate_monthly_investment_for_target t r y) (r / 12) (y * 12)
  rw [lastWealth_simulate _ _ _ hy]
  have hkey : (r / 12) * wealthAfter
      (calculate_monthly_investment_for_target t r y) (r / 12) (y * 12) =
      (r / 12) * (t * (1 + r / 12)) := by
    linear_combination hcw + (1 + r / 12) * hmul
  exact mul_left_cancel₀ (ne_of_gt hx) hkey

/-! ### Claims -/

/-- Claim C2: for every target, non-zero annual rate and years,
`calculate_monthly_investment_for_target` returns
`target / (((1 + annual_rate/12)^(years*12) - 1) / (annual_rate/12))`, the
algebraic inverse of the future-value-of-annuity formula with
`r = annual_rate/12` and `n = years*12`. -/
theorem claim_C2_calculator_formula (t r : ℚ) (y : ℕ) (_hr : r ≠ 0) :
    calculate_monthly_investment_for_target t r y =
      t / (((1 + r / 12) ^ (y * 12) - 1) / (r / 12)) := rfl

/-- Witness for C2 at target 5, annual rate 2, 3 years. -/
theorem claim_C2_witness :
    calculate_monthly_investment_for_target 5 2 3 =
      5 / (((1 + 2 / 12) ^ (3 * 12) - 1) / (2 / 12)) :=
  claim_C2_calculator_formula 5 2 3 (by norm_num)

/-- Claim C3: the simulator returns a sequence of length exactly `years`,
whose `i`-th element is the balance obtained by starting at 0 and, for each
month in order, first adding the contribution and then applying the monthly
factor, recorded at month `(i+1)*12` — i.e. after the multiplication of each
month that is a multiple of 12. -/
theorem claim_C3_simulator_algorithm (m r : ℚ) (y : ℕ) :
    (simulate_index_investment m r y).length = y ∧
    ∀ i, i < y → (simulate_index_investment m r y).getD i 0 =
      wealthAfter m (r / 12) ((i + 1) * 12) := by
  constructor
  · rw [simulate_eq_map, List.length_map, List.length_range]
  · intro i hi
    exact simulate_getD m r y i hi

/-- Witness for C3 at contribution 1, rate 0, 1 year. -/
theorem claim_C3_witness :
    (simulate_index_investment 1 0 1).getD 0 0 =
      wealthAfter 1 (0 / 12) ((0 + 1) * 12) :=
  (claim_C3_simulator_algorithm 1 0 1).2 0 (by norm_num)

/-- Claim C5: `format_yen` picks exactly one of three magnitude bands —
`≥ 1e8`: value scaled by 1e8, two decimals, unit 億円; `1e4 ≤ · < 1e8`:
value scaled by 1e4, one decimal, unit 万円; `< 1e4`: unscaled value, zero
decimals, unit 円 — and the four boundary inputs land in the claimed
bands. -/
theorem claim_C5_formatter_bands :
    (∀ a : ℚ, 0 ≤ a →
      ((100000000 ≤ a → format_yen a = ⟨a / 100000000, 2, "億円"⟩) ∧
       (10000 ≤ a → a < 100000000 → format_yen a = ⟨a / 10000, 1, "万円"⟩) ∧
       (a < 10000 → format_yen a = ⟨a, 0, "円"⟩))) ∧
    format_yen 99999999 = ⟨99999999 / 10000, 1, "万円"⟩ ∧
    format_yen 100000000 = ⟨100000000 / 100000000, 2, "億円"⟩ ∧
    format_yen 9999 = ⟨9999, 0, "円"⟩ ∧
    format_yen 10000 = ⟨10000 / 10000, 1, "万円"⟩ := by
  refine ⟨fun a ha => ⟨fun h => ?_, fun h1 h2 => ?_, fun h => ?_⟩, ?_, ?_, ?_, ?_⟩
  · rw [format_yen, if_pos h]
  · rw [format_yen, if_neg (by simpa using not_le.mpr h2), if_pos h1]
  · rw [format_yen, if_neg (by simp only [ge_iff_le, not_le]; linarith),
      if_neg (by simpa using not_le.mpr h)]
  · norm_num [format_yen]
  · norm_num [format_yen]
  · norm_num [format_yen]
  · norm_num [format_yen]

/-- Witness for C5 at amount 0 (base band). -/
theorem claim_C5_witness : format_yen 0 = ⟨0, 0, "円"⟩ :=
  (claim_C5_formatter_bands.1 0 (le_refl 0)).2.2 (by norm_num)

/-- Claim C9: `format_yen` is total; a negative amount falls through both
thresholds and lands in the base band, rendered unscaled with zero decimals
and unit 円. -/
theorem claim_C9_formatter_negative (a : ℚ) (ha : a < 0) :
    format_yen a = ⟨a, 0, "円"⟩ := by
  rw [format_yen, if_neg (by simp only [ge_iff_le, not_le]; linarith),
    if_neg (by simp only [ge_iff_le, not_le]; linarith)]

/-- Witness for C9: `format_yen (-5000)` renders as -5000 with zero decimals
and unit 円, i.e. the string "-5000円". -/
theorem claim_C9_witness : format_yen (-5000) = ⟨-5000, 0, "円"⟩ :=
  claim_C9_formatter_negative (-5000) (by norm_num)

/-- Claim C8: for each horizon of the first report table, the printed row
derives principal as `required_monthly * (years*12)`, profit as
`target - principal`, profit ratio as `profit / principal * 100`, and sets
the achievability flag exactly when `required_monthly ≤ current_monthly`. -/
theorem claim_C8_first_table (y : ℕ) (_hy : y ∈ periods) :
    (periodRow y).required_monthly =
        calculate_monthly_investment_for_target target_amount annual_rate y ∧
    (periodRow y).total_invested =
        (periodRow y).required_monthly * ((y * 12 : ℕ) : ℚ) ∧
    (periodRow y).profit = target_amount - (periodRow y).total_invested ∧
    (periodRow y).profit_rate =
        ((periodRow y).profit / (periodRow y).total_invested) * 100 ∧
    ((periodRow y).achievable = true ↔
        (periodRow y).required_monthly ≤ current_monthly) := by
  refine ⟨rfl, rfl, rfl, rfl, ?_⟩
  show decide _ = true ↔ _
  exact decide_eq_true_iff

/-- Witness for C8 at the 10-year horizon. -/
theorem claim_C8_witness :
    (periodRow 10).profit = target_amount - (periodRow 10).total_invested :=
  (claim_C8_first_table 10 (by norm_num [periods])).2.2.1

/-- Claim C10: the simulator output for a shorter horizon is the
corresponding initial segment of the output for a longer horizon, and the
zero-year simulation is empty. -/
theorem claim_C10_take_stability (m r : ℚ) (y1 y2 : ℕ) (h : y1 ≤ y2) :
    simulate_index_investment m r y1 =
      (simulate_index_investment m r y2).take y1 ∧
    simulate_index_investment m r 0 = [] := by
  constructor
  · rw [simulate_eq_map, simulate_eq_map, ← List.map_take, List.take_range,
      min_eq_left h]
  · rw [simulate_eq_map]
    simp

/-- Witness for C10 at horizons 1 ≤ 2. -/
theorem claim_C10_witness :
    simulate_index_investment 3 7 1 =
      (simulate_index_investment 3 7 2).take 1 ∧
    simulate_index_investment 3 7 0 = [] :=
  claim_C10_take_stability 3 7 1 2 (by norm_num)

/-- Claim C6: for fixed positive target and rate, the required monthly
contribution strictly decreases as the horizon grows. -/
theorem claim_C6_calculator_antitone (t r : ℚ) (y1 y2 : ℕ) (ht : 0 < t)
    (hr : 0 < r) (hy1 : 0 < y1) (h12 : y1 < y2) :
    calculate_monthly_investment_for_target t r y2 <
      calculate_monthly_investment_for_target t r y1 := by
  have hx : 0 < r / 12 := by positivity
  have h1 : (1 : ℚ) < 1 + r / 12 := by linarith
  have hp1 : 1 < (1 + r / 12) ^ (y1 * 12) := one_lt_pow₀ h1 (by omega)
  have hplt : (1 + r / 12) ^ (y1 * 12) < (1 + r / 12) ^ (y2 * 12) :=
    pow_lt_pow_right₀ h1 (by omega)
  have hD1 : 0 < ((1 + r / 12) ^ (y1 * 12) - 1) / (r / 12) :=
    div_pos (by linarith) hx
  have hDlt : ((1 + r / 12) ^ (y1 * 12) - 1) / (r / 12) <
      ((1 + r / 12) ^ (y2 * 12) - 1) / (r / 12) :=
    (div_lt_div_iff_of_pos_right hx).mpr (by linarith)
  show t / (((1 + r / 12) ^ (y2 * 12) - 1) / (r / 12)) <
    t / (((1 + r / 12) ^ (y1 * 12) - 1) / (r / 12))
  exact div_lt_div_of_pos_left ht hD1 hDlt

/-- Witness for C6: at target 1, annual rate 12, the 2-year contribution is
strictly below the 1-year one. -/
theorem claim_C6_witness :
    calculate_monthly_investment_for_target 1 12 2 <
      calculate_monthly_investment_for_target 1 12 1 :=
  claim_C6_calculator_antitone 1 12 1 2 (by norm_num) (by norm_num)
    (by norm_num) (by norm_num)

/-- Claim C7: for positive contribution and rate, the year-end balances
returned by the simulator are strictly increasing. -/
theorem claim_C7_simulator_increasing (m r : ℚ) (y : ℕ) (hm : 0 < m)
    (hr : 0 < r) (i : ℕ) (hi : i + 1 < y) :
    (simulate_index_investment m r y).getD i 0 <
      (simulate_index_investment m r y).getD (i + 1) 0 := by
  rw [simulate_getD m r y i (by omega), simulate_getD m r y (i + 1) hi]
  exact wealthAfter_strictMono m (r / 12) hm (by positivity) (by omega)

/-- Witness for C7: with contribution 1, annual rate 12, two years, the
first-year balance is below the second-year one. -/
theorem claim_C7_witness :
    (simulate_index_investment 1 12 2).getD 0 0 <
      (simulate_index_investment 1 12 2).getD 1 0 :=
  claim_C7_simulator_increasing 1 12 2 (by norm_num) (by norm_num) 0
    (by norm_num)

/-- Claim C1 fails on the code: at target 100 000 000, annual rate 1/20 and
one year, the simulated final balance misses the target by a relative error
of 1/240, far above the claimed 1e-6 tolerance. -/
theorem claim_C1_counterexample :
    ¬ (|lastWealth (simulate_index_investment
        (calculate_monthly_investment_for_target 100000000 (1 / 20) 1)
        (1 / 20) 1) - 100000000| ≤ (1 / 1000000) * 100000000) := by
  rw [roundtrip_exact 100000000 (1 / 20) 1 (by norm_num) (by norm_num)]
  rw [abs_le]
  push_neg
  intro h
  norm_num

/-- Claim C1 amended: feeding the required monthly contribution back into
the simulator yields a final-year balance of exactly
`target * (1 + annual_rate / 12)` — one extra month of interest above the
target, a relative deviation of `annual_rate / 12`, not within 1e-6. -/
theorem claim_C1_roundtrip_amended (t r : ℚ) (y : ℕ) (_ht : 0 < t)
    (hr : 0 < r) (hy : 0 < y) :
    lastWealth (simulate_index_investment
      (calculate_monthly_investment_for_target t r y) r y) =
      t * (1 + r / 12) :=
  roundtrip_exact t r y hr hy

/-- Witness for the amended C1 at target 1, annual rate 12, one year. -/
theorem claim_C1_witness :
    lastWealth (simulate_index_investment
      (calculate_monthly_investment_for_target 1 12 1) 12 1) =
      1 * (1 + 12 / 12) :=
  claim_C1_roundtrip_amended 1 12 1 (by norm_num) (by norm_num) (by norm_num)

/-- Claim C4: a row of the 30-year trajectory table is printed for a year
exactly when the year number is a multiple of 5, or that year's balance has
reached/exceeded the target, or it is year 30; and the marker component of a
printed row is the target-reached glyph exactly when the balance has
reached/exceeded the target. -/
theorem claim_C4_trajectory_table (yn : ℕ) (w : ℚ) (mk : Bool) :
    (yn, w, mk) ∈ trajectoryRows ↔
      (1 ≤ yn ∧ yn ≤ 30 ∧
       w = wealthAfter current_monthly (annual_rate / 12) (yn * 12) ∧
       (yn % 5 = 0 ∨ w ≥ target_amount ∨ yn = 30) ∧
       (mk = true ↔ w ≥ target_amount)) := by
  have hchar : trajectory30 =
      (List.range 30).map
        (fun i => wealthAfter current_monthly (annual_rate / 12)
          ((i + 1) * 12)) := by
    rw [trajectory30, simulate_eq_map]
  unfold trajectoryRows
  rw [hchar, List.mem_filterMap]
  constructor
  · rintro ⟨⟨i, a⟩, hmem, heq⟩
    rw [List.mem_enum_iff_getElem?] at hmem
    simp only [List.getElem?_map] at hmem
    have hi : i < 30 := by
      by_contra hge
      rw [List.getElem?_eq_none (by simpa using hge)] at hmem
      simp at hmem
    rw [List.getElem?_range hi, Option.map_some'] at hmem
    have ha : a = wealthAfter current_monthly (annual_rate / 12)
        ((i + 1) * 12) := by
      have := Option.some.inj hmem
      exact this.symm
    by_cases hcond : (i + 1) % 5 = 0 ∨ a ≥ target_amount ∨ i + 1 = 30
    · rw [if_pos hcond] at heq
      simp only [Option.some.injEq, Prod.mk.injEq] at heq
      obtain ⟨hyn, haw, hdec⟩ := heq
      subst hyn
      subst haw
      refine ⟨by omega, by omega, by rw [← ha], hcond, ?_⟩
      rw [← hdec]
      exact decide_eq_true_iff
    · rw [if_neg hcond] at heq
      exact absurd heq (by simp)
  · rintro ⟨h1, h30, hw, hcond, hmk⟩
    refine ⟨(yn - 1, w), ?_, ?_⟩
    · rw [List.mem_enum_iff_getElem?]
      simp only [List.getElem?_map, List.getElem?_range (by omega : yn - 1 < 30),
        Option.map_some']
      have hyn : yn - 1 + 1 = yn := by omega
      rw [hyn, ← hw]
    · simp only
      have hyn : yn - 1 + 1 = yn := by omega
      rw [hyn, if_pos hcond]
      have hdec : decide (w ≥ target_amount) = mk := by
        cases mk
        · simp only [Bool.false_eq_true, false_iff] at hmk
          simpa using hmk
        · simp only [true_iff] at hmk
          simpa using hmk
      rw [hdec]
